import Mathlib

/-!
Verification of the ticket-intake gateway (ServiceNow help-desk repository).

This file shallowly embeds the core modules the specification talks about:
the retry wrapper of the remote client, the classification engine and its
static rule table, the automation dispatcher, the incident orchestrator,
the resolution service, and the activity reconstructor.  Pure TypeScript
functions become Lean functions; remote calls become explicit parameters
(fetched records, patch echoes) and explicit call traces; thrown JS
exceptions become `Except` values; JS string truthiness (`""` is falsy)
is modelled explicitly wherever the source relies on it.
-/

/-! ## JS-style string primitives

The source manipulates JS strings (`includes`, `split`, `trim`,
`startsWith`, `toLowerCase`).  These are modelled over `List Char`
so that every definition evaluates by kernel reduction. -/

/-- JS whitespace (`\s`, `trim`) restricted to the ASCII whitespace
characters that actually occur in the sources and inputs. -/
def isJsWs (c : Char) : Bool :=
  c = ' ' || c = '\t' || c = '\n' || c = '\r' || c = '\x0b' || c = '\x0c'

/-- `leadsWith needle hay`: `hay` starts with `needle`. -/
def leadsWith : List Char → List Char → Bool
  | [], _ => true
  | _ :: _, [] => false
  | a :: as, b :: bs => a = b && leadsWith as bs

/-- `containsSeg needle hay`: `needle` occurs contiguously in `hay`
(the semantics of JS `hay.includes(needle)`). -/
def containsSeg (needle : List Char) : List Char → Bool
  | [] => needle.isEmpty
  | c :: rest => leadsWith needle (c :: rest) || containsSeg needle rest

/-- JS `hay.includes(needle)`. -/
def strIncludes (hay needle : String) : Bool :=
  containsSeg needle.data hay.data

/-- JS `s.toLowerCase()` (ASCII case folding). -/
def strToLower (s : String) : String :=
  String.mk (s.data.map Char.toLower)

/-- JS `s.trim()`. -/
def strTrim (s : String) : String :=
  String.mk (((s.data.dropWhile isJsWs).reverse.dropWhile isJsWs).reverse)

/-- JS `s.startsWith(p)`. -/
def strStartsWith (s p : String) : Bool :=
  leadsWith p.data s.data

/-- Split a character list at every occurrence of `c`
(the semantics of JS `s.split(c)`: always at least one group). -/
def splitOnChar (c : Char) : List Char → List (List Char)
  | [] => [[]]
  | x :: xs =>
    match splitOnChar c xs with
    | [] => [[]]
    | g :: gs => if x = c then [] :: g :: gs else (x :: g) :: gs

/-- JS `s.split("\n")`. -/
def splitLines (s : String) : List String :=
  (splitOnChar '\n' s.data).map String.mk

/-- JS `a || d` for an optional string: the default is used when the
value is absent or empty (JS falsy). -/
def jsOrStr (o : Option String) (d : String) : String :=
  match o with
  | some s => if s = "" then d else s
  | none => d

/-! ## Resilient remote client: the retry wrapper (`withRetry`)

Embedded from the `withRetry` implementation in
`docs/servicenow/SERVICENOW_ERROR_HANDLING_GUIDE.md` (lines 119-152).
The wrapped call `fn` is modelled by a list of HTTP status codes, one
per attempted call: a 2xx status makes the call return normally, any
other status makes it throw an error carrying that `statusCode`.
Delays are counted, not timed (the jitter only perturbs durations). -/

instance {ε α : Type} [DecidableEq ε] [DecidableEq α] : DecidableEq (Except ε α) := fun a b =>
  match a, b with
  | Except.ok x, Except.ok y =>
    if h : x = y then .isTrue (h ▸ rfl) else .isFalse (fun hc => h (Except.ok.inj hc))
  | Except.error x, Except.error y =>
    if h : x = y then .isTrue (h ▸ rfl) else .isFalse (fun hc => h (Except.error.inj hc))
  | Except.ok _, Except.error _ => .isFalse (fun hc => Except.noConfusion hc)
  | Except.error _, Except.ok _ => .isFalse (fun hc => Except.noConfusion hc)

/-- Outcome of the retry wrapper: the propagated result or error status,
the number of calls attempted, and the number of back-off delays. -/
structure RetryOutcome where
  result : Except Nat Nat
  calls : Nat
  delays : Nat
deriving DecidableEq, Repr

/-- The body of `withRetry`'s `for (let attempt = 1; attempt <= maxAttempts; ...)`
loop; `remaining` counts the loop iterations still allowed. -/
def withRetryGo (responses : List Nat) (maxAttempts attempt calls delays : Nat)
    (remaining : Nat) (lastError : Option Nat) : RetryOutcome :=
  match remaining with
  | 0 => ⟨Except.error (lastError.getD 0), calls, delays⟩
  | r + 1 =>
    match responses with
    | [] => ⟨Except.error (lastError.getD 0), calls, delays⟩
    | s :: rest =>
      if 200 ≤ s ∧ s < 300 then
        ⟨Except.ok s, calls + 1, delays⟩
      else if 400 ≤ s ∧ s < 500 then
        -- `if (error.statusCode >= 400 && error.statusCode < 500) throw error;`
        ⟨Except.error s, calls + 1, delays⟩
      else if attempt = maxAttempts then
        -- `if (attempt === maxAttempts) throw error;`
        ⟨Except.error s, calls + 1, delays⟩
      else
        withRetryGo rest maxAttempts (attempt + 1) (calls + 1) (delays + 1) r (some s)

/-- `withRetry(fn, maxAttempts)` over a fixed sequence of responses. -/
def withRetry (responses : List Nat) (maxAttempts : Nat) : RetryOutcome :=
  withRetryGo responses maxAttempts 1 0 0 maxAttempts none

/-! ## Classification engine (`src/docsdesk/classification.ts`,
`src/docsdesk/classification-rules.ts`) -/

inductive ResourceType where
  | doc
  | video
deriving DecidableEq, Repr

structure ClassificationResource where
  type : ResourceType
  label : String
  url : String
deriving DecidableEq, Repr

structure ClassificationRule where
  category : String
  matchKeywords : Option (List String) := none
  matchErrorCodes : Option (List String) := none
  topic : String
  resources : List ClassificationResource
deriving DecidableEq, Repr

structure ClassificationInput where
  client : String
  category : String
  errorCode : Option String := none
  shortDescription : String
  detailedDescription : String
deriving DecidableEq, Repr

structure ClassificationResult where
  topic : String
  recommendedResources : List ClassificationResource
deriving DecidableEq, Repr

/-- The static rule table `CLASSIFICATION_RULES`, transcribed in
declaration order. -/
def CLASSIFICATION_RULES : List ClassificationRule := [
  { category := "Google Workspace – Account Access",
    matchKeywords := some ["password", "login", "access", "account", "locked", "reset"],
    topic := "Google Workspace Account Access",
    resources := [
      ⟨ResourceType.doc, "Google Workspace Account Access Troubleshooting",
        "https://support.google.com/a/answer/1728857"⟩,
      ⟨ResourceType.doc, "Reset Google Workspace User Password",
        "https://support.google.com/a/answer/33319"⟩,
      ⟨ResourceType.video, "Google Workspace Admin Console Walkthrough",
        "https://www.loom.com/share/google-workspace-admin-console"⟩,
      ⟨ResourceType.doc, "Two-Factor Authentication Setup Guide",
        "https://support.google.com/a/answer/175197"⟩] },
  { category := "Google Workspace – Account Access",
    topic := "General Google Workspace Account Access Support",
    resources := [
      ⟨ResourceType.doc, "Google Workspace Admin Help", "https://support.google.com/a"⟩] },
  { category := "Google Workspace – Groups & Permissions",
    matchKeywords := some ["group", "permission", "share", "access", "member"],
    topic := "Google Workspace Groups & Permissions",
    resources := [
      ⟨ResourceType.doc, "Manage Google Groups", "https://support.google.com/a/answer/167100"⟩,
      ⟨ResourceType.doc, "Share Files and Folders in Google Drive",
        "https://support.google.com/drive/answer/7166529"⟩,
      ⟨ResourceType.video, "Google Workspace Permissions Overview",
        "https://www.loom.com/share/google-workspace-permissions"⟩] },
  { category := "Google Workspace – Groups & Permissions",
    topic := "General Google Workspace Groups & Permissions Support",
    resources := [
      ⟨ResourceType.doc, "Google Workspace Admin Help", "https://support.google.com/a"⟩] },
  { category := "HubSpot – Lifecycle & Automation",
    matchKeywords := some ["lifecycle", "workflow", "automation", "deal stage", "pipeline", "enrollment"],
    matchErrorCodes := some ["WF-", "HS-WF"],
    topic := "HubSpot Lifecycle & Automation",
    resources := [
      ⟨ResourceType.doc, "HubSpot Lifecycle Playbook",
        "https://docs.example.com/hubspot-lifecycle-playbook"⟩,
      ⟨ResourceType.video, "HubSpot Workflow Debug Walkthrough",
        "https://www.loom.com/share/hubspot-workflow-debug"⟩,
      ⟨ResourceType.doc, "HubSpot Automation Best Practices",
        "https://docs.example.com/hubspot-automation-best-practices"⟩] },
  { category := "HubSpot – Lifecycle & Automation",
    topic := "General HubSpot Lifecycle & Automation Support",
    resources := [
      ⟨ResourceType.doc, "HubSpot Lifecycle & Automation Documentation",
        "https://docs.example.com/hubspot-lifecycle-automation"⟩] },
  { category := "HubSpot – Email Deliverability",
    matchKeywords := some ["bounce", "delivery", "spam", "dkim", "spf", "email", "send"],
    matchErrorCodes := some ["Bounce", "5.1.0", "5.7.1"],
    topic := "HubSpot Email Deliverability",
    resources := [
      ⟨ResourceType.doc, "HubSpot Email Deliverability Guide",
        "https://docs.example.com/hubspot-email-deliverability"⟩,
      ⟨ResourceType.doc, "SPF and DKIM Configuration for HubSpot",
        "https://docs.example.com/hubspot-spf-dkim"⟩,
      ⟨ResourceType.video, "Troubleshooting Email Bounces",
        "https://www.loom.com/share/hubspot-email-bounces"⟩] },
  { category := "HubSpot – Email Deliverability",
    topic := "General HubSpot Email Deliverability Support",
    resources := [
      ⟨ResourceType.doc, "HubSpot Email Deliverability Documentation",
        "https://docs.example.com/hubspot-email-deliverability-docs"⟩] },
  { category := "Buildertrend – Estimates & Proposals",
    matchKeywords := some ["estimate", "proposal", "quote", "bid", "pricing"],
    topic := "Buildertrend Estimates & Proposals",
    resources := [
      ⟨ResourceType.doc, "Buildertrend Estimates Guide",
        "https://docs.example.com/buildertrend-estimates"⟩,
      ⟨ResourceType.video, "Creating Proposals in Buildertrend",
        "https://www.loom.com/share/buildertrend-proposals"⟩,
      ⟨ResourceType.doc, "Buildertrend Pricing Best Practices",
        "https://docs.example.com/buildertrend-pricing"⟩] },
  { category := "Buildertrend – Estimates & Proposals",
    topic := "General Buildertrend Estimates & Proposals Support",
    resources := [
      ⟨ResourceType.doc, "Buildertrend Estimates & Proposals Documentation",
        "https://docs.example.com/buildertrend-estimates-docs"⟩] },
  { category := "Buildertrend – Daily Logs & Timecards",
    matchKeywords := some ["log", "timecard", "time", "hours", "attendance", "daily"],
    topic := "Buildertrend Daily Logs & Timecards",
    resources := [
      ⟨ResourceType.doc, "Buildertrend Daily Logs Guide",
        "https://docs.example.com/buildertrend-daily-logs"⟩,
      ⟨ResourceType.video, "Timecard Management in Buildertrend",
        "https://www.loom.com/share/buildertrend-timecards"⟩,
      ⟨ResourceType.doc, "Buildertrend Time Tracking Best Practices",
        "https://docs.example.com/buildertrend-time-tracking"⟩] },
  { category := "Buildertrend – Daily Logs & Timecards",
    topic := "General Buildertrend Daily Logs & Timecards Support",
    resources := [
      ⟨ResourceType.doc, "Buildertrend Daily Logs & Timecards Documentation",
        "https://docs.example.com/buildertrend-logs-timecards-docs"⟩] },
  { category := "Apple Business Essentials – Device Enrollment",
    matchKeywords := some ["iphone", "ipad", "device", "enrollment", "mdm", "enroll"],
    topic := "Apple Business Essentials Device Enrollment",
    resources := [
      ⟨ResourceType.doc, "Apple Business Essentials Device Enrollment",
        "https://docs.example.com/apple-device-enrollment"⟩,
      ⟨ResourceType.video, "MDM Configuration Walkthrough",
        "https://www.loom.com/share/apple-mdm-config"⟩,
      ⟨ResourceType.doc, "Device Enrollment Troubleshooting",
        "https://docs.example.com/apple-enrollment-troubleshooting"⟩] },
  { category := "Apple Business Essentials – Device Enrollment",
    topic := "General Apple Business Essentials Device Enrollment Support",
    resources := [
      ⟨ResourceType.doc, "Apple Business Essentials Device Enrollment Documentation",
        "https://docs.example.com/apple-device-enrollment-docs"⟩] },
  { category := "Website – DNS & Email Routing",
    matchKeywords := some ["dns", "domain", "mx", "spf", "dkim", "email routing", "nameserver"],
    topic := "Website DNS & Email Routing",
    resources := [
      ⟨ResourceType.doc, "DNS Configuration Guide",
        "https://docs.example.com/dns-configuration"⟩,
      ⟨ResourceType.doc, "Email Routing Setup",
        "https://docs.example.com/email-routing-setup"⟩,
      ⟨ResourceType.video, "DNS Record Management Tutorial",
        "https://www.loom.com/share/dns-management"⟩] },
  { category := "Website – DNS & Email Routing",
    topic := "General Website DNS & Email Routing Support",
    resources := [
      ⟨ResourceType.doc, "Website DNS & Email Routing Documentation",
        "https://docs.example.com/website-dns-email-docs"⟩] },
  { category := "Website – Content & Layout",
    matchKeywords := some ["layout", "design", "css", "styling", "responsive", "content", "page"],
    topic := "Website Content & Layout",
    resources := [
      ⟨ResourceType.doc, "Website Design Guidelines",
        "https://docs.example.com/website-design-guidelines"⟩,
      ⟨ResourceType.video, "Responsive Design Best Practices",
        "https://www.loom.com/share/responsive-design"⟩,
      ⟨ResourceType.doc, "Content Management Best Practices",
        "https://docs.example.com/content-management"⟩] },
  { category := "Website – Content & Layout",
    topic := "General Website Content & Layout Support",
    resources := [
      ⟨ResourceType.doc, "Website Content & Layout Documentation",
        "https://docs.example.com/website-content-layout-docs"⟩] },
  { category := "Integrations – Automation / Zapier / Make",
    matchKeywords := some ["zapier", "make", "automation", "workflow", "trigger", "action"],
    topic := "Integrations Automation (Zapier / Make)",
    resources := [
      ⟨ResourceType.doc, "Zapier Integration Guide",
        "https://docs.example.com/zapier-integration"⟩,
      ⟨ResourceType.doc, "Make (Integromat) Automation Guide",
        "https://docs.example.com/make-automation"⟩,
      ⟨ResourceType.video, "Building Automation Workflows",
        "https://www.loom.com/share/automation-workflows"⟩] },
  { category := "Integrations – Automation / Zapier / Make",
    matchKeywords := some ["api", "webhook", "sync", "connection", "integration"],
    topic := "Integration Setup & Configuration",
    resources := [
      ⟨ResourceType.doc, "Integration Setup Guide",
        "https://docs.example.com/integration-setup"⟩,
      ⟨ResourceType.video, "Webhook Configuration Tutorial",
        "https://www.loom.com/share/webhook-config"⟩] },
  { category := "Integrations – Automation / Zapier / Make",
    matchKeywords := some ["error", "failed", "timeout", "authentication"],
    topic := "Integration Errors",
    resources := [
      ⟨ResourceType.doc, "Integration Error Troubleshooting",
        "https://docs.example.com/integration-errors"⟩] },
  { category := "Integrations – Automation / Zapier / Make",
    topic := "General Integration Automation Support",
    resources := [
      ⟨ResourceType.doc, "Integration Automation Documentation",
        "https://docs.example.com/integration-automation-docs"⟩] },
  { category := "Other",
    topic := "General Support",
    resources := [
      ⟨ResourceType.doc, "General Support Documentation",
        "https://docs.example.com/general-support"⟩] }]

/-- First-pass predicate of `classifyAndRecommend`: `text` is the
already-lowercased combined text, `errorCode` the already-lowercased
optional error code.  JS truthiness: an empty error code string is
falsy, an absent `matchKeywords`/`matchErrorCodes` yields `false`. -/
def codeRuleMatches (text : String) (errorCode : Option String) (rule : ClassificationRule) : Bool :=
  let hasKeyword :=
    match rule.matchKeywords with
    | some kws => kws.any (fun kw => strIncludes text (strToLower kw))
    | none => false
  let hasErrorCode :=
    match errorCode with
    | some ec =>
      !(ec == "") &&
        (match rule.matchErrorCodes with
         | some ecs => ecs.any (fun p => strIncludes ec (strToLower p))
         | none => false)
    | none => false
  hasKeyword || hasErrorCode

/-- `classifyAndRecommend` from `classification.ts`. -/
def classifyAndRecommend (input : ClassificationInput) : ClassificationResult :=
  let text := strToLower (input.shortDescription ++ " " ++ input.detailedDescription)
  let errorCode := input.errorCode.map strToLower
  let candidates := CLASSIFICATION_RULES.filter (fun rule => rule.category == input.category)
  match candidates.find? (fun rule => codeRuleMatches text errorCode rule) with
  | some rule => ⟨rule.topic, rule.resources⟩
  | none =>
    match candidates.find? (fun rule => rule.matchKeywords.isNone && rule.matchErrorCodes.isNone) with
    | some fallback => ⟨fallback.topic, fallback.resources⟩
    | none => ⟨"Unclassified / Manual Review", []⟩

/-! ## Resolution service (`resolveIncident`)

The remote interaction is made explicit: the initial fetch
(`getTable` with `sysparm_query: sys_id=...`) is given as the list of
records the remote returns, the `patch` echo as an oracle from the
transmitted payload to the record the remote echoes back.  The second
component of the result is the trace of partial-update payloads
actually transmitted. -/

structure SNIncidentRecord where
  sys_id : String
  number : Option String := none
  state : String
  resolution_code : Option String := none
  resolution_notes : Option String := none
  resolved_at : Option String := none
  close_code : Option String := none
  close_notes : Option String := none
deriving DecidableEq, Repr

/-- The partial-update body `{ state, close_code, close_notes }` sent by
`resolveIncident`. -/
structure ResolvePatchPayload where
  state : String
  close_code : String
  close_notes : String
deriving DecidableEq, Repr

/-- What `resolveIncident` returns: the record (spread into the JS result
object) plus the `alreadyResolved` flag (absent in JS = `false`). -/
structure ResolvedIncidentOut where
  record : SNIncidentRecord
  alreadyResolved : Bool
deriving DecidableEq, Repr

/-- `resolveIncident(incidentSysId, resolutionNote)` from
`classification.ts` (resolution module). -/
def resolveIncident (fetchResult : List SNIncidentRecord)
    (patchEcho : ResolvePatchPayload → SNIncidentRecord)
    (incidentSysId : String) (resolutionNote : Option String) :
    Except String ResolvedIncidentOut × List ResolvePatchPayload :=
  match fetchResult with
  | [] =>
    (Except.error ("Incident " ++ incidentSysId ++ " not found"), [])
  | incident :: _ =>
    if incident.state == "6" || incident.state == "7" then
      -- idempotency guard: return the record unchanged, no update issued
      (Except.ok ⟨incident, true⟩, [])
    else
      let payload : ResolvePatchPayload :=
        ⟨"6", "Solution provided", resolutionNote.getD "Resolved via knowledge deflection."⟩
      (Except.ok ⟨{ patchEcho payload with state := "6" }, false⟩, [payload])

/-- Remote semantics of the fetch `sysparm_query: sys_id=<id>`. -/
def snQueryById (store : List SNIncidentRecord) (id : String) : List SNIncidentRecord :=
  store.filter (fun r => r.sys_id == id)

/-- Remote semantics of applying the resolve partial update to a record. -/
def applyResolvePatch (r : SNIncidentRecord) (p : ResolvePatchPayload) : SNIncidentRecord :=
  { r with state := p.state, close_code := some p.close_code, close_notes := some p.close_notes }

/-- Remote semantics of `PATCH incident/<id>` against a record store. -/
def patchById (store : List SNIncidentRecord) (id : String) (p : ResolvePatchPayload) :
    List SNIncidentRecord :=
  store.map (fun r => if r.sys_id == id then applyResolvePatch r p else r)

/-- `resolveIncident` run against a well-behaved remote store: the fetch
returns the matching records, a transmitted patch updates the store and
echoes the updated record.  Returns the call result, the transmitted
patch payloads, and the store after the call. -/
def resolveIncidentOnStore (store : List SNIncidentRecord) (id : String)
    (note : Option String) :
    (Except String ResolvedIncidentOut × List ResolvePatchPayload) × List SNIncidentRecord :=
  let echo : ResolvePatchPayload → SNIncidentRecord := fun p =>
    match snQueryById store id with
    | r :: _ => applyResolvePatch r p
    | [] => applyResolvePatch ⟨id, none, "", none, none, none, none, none⟩ p
  let out := resolveIncident (snQueryById store id) echo id note
  (out, match out.2 with
        | [] => store
        | p :: _ => patchById store id p)

/-! ## Contact resolver and automation dispatcher
(`docsdesk/contacts.ts`, `docsdesk/automation.ts`) -/

/-- The client-facing incident-creation payload (`ClientIncidentCreate`). -/
structure ClientIncidentCreate where
  client : String
  category : String
  errorCode : Option String := none
  shortDescription : String
  detailedDescription : Option String := none
  priority : Option String := none
  clientEmail : Option String := none
  clientId : Option String := none
  clientContactId : Option String := none
deriving DecidableEq, Repr

/-- `resolveContactEmail` (contacts module), phase 1: echo the literal
`clientEmail` when it is truthy, else `null`; no remote reads. -/
def resolveContactEmail (payload : ClientIncidentCreate) : Option String :=
  match payload.clientEmail with
  | some e => if e == "" then none else some e
  | none => none

/-- `GOOGLE_WORKSPACE_ACCOUNT_ACCESS_RESOURCES` from `automation.ts`. -/
def googleWorkspaceAccountAccessResources : List ClassificationResource := [
  ⟨ResourceType.doc, "Google Workspace Account Access Troubleshooting",
    "https://support.google.com/a/answer/1728857"⟩,
  ⟨ResourceType.doc, "Reset Google Workspace User Password",
    "https://support.google.com/a/answer/33319"⟩,
  ⟨ResourceType.video, "Google Workspace Admin Console Walkthrough",
    "https://www.loom.com/share/google-workspace-admin-console"⟩,
  ⟨ResourceType.doc, "Two-Factor Authentication Setup Guide",
    "https://support.google.com/a/answer/175197"⟩]

/-- `sendAcknowledgementEmail` (stub): logs only, always reports
`{ sent: false, provider: undefined }`. -/
def sendAcknowledgementEmail (_clientEmail _incidentNumber _topic : String)
    (_resources : List ClassificationResource) : Bool × Option String :=
  (false, none)

/-- `hasAutomation(category)` from `automation.ts`. -/
def hasAutomation (category : String) : Bool :=
  category == "Google Workspace – Account Access"

/-- `resourceTypeText`: the textual form of the resource type used when a
resource is printed in a work note (`(doc)` / `(video)`). -/
def resourceTypeText : ResourceType → String
  | ResourceType.doc => "doc"
  | ResourceType.video => "video"

/-- The structured note body built by `writeAutomationWorkNote`. -/
def automationWorkNoteText (topic : String) (resources : List ClassificationResource)
    (emailSent : Bool) (resolvedEmail : Option String) : String :=
  let resourceList := String.intercalate "\n"
    (resources.map (fun r => "  • " ++ r.label ++ " (" ++ resourceTypeText r.type ++ ")"))
  let emailStatus :=
    if emailSent && !(jsOrStr resolvedEmail "" == "") then
      "Acknowledgement email sent to " ++ (resolvedEmail.getD "") ++ "."
    else if emailSent then
      "Acknowledgement email sent to client."
    else
      "Acknowledgement email not sent (no email provider configured)."
  "[AUTO] Classified as \x27" ++ topic ++ "\x27\n" ++ emailStatus ++
    "\n\nRecommended self-service resources:\n" ++ resourceList

/-- `writeAutomationWorkNote`: attempts the `work_notes` patch and
catches any failure, returning whether the note was written together
with the transmitted note body.  `patchResult` is the remote outcome of
the patch call (an exception becomes `Except.error`). -/
def writeAutomationWorkNote (patchResult : Except String Unit) (topic : String)
    (resources : List ClassificationResource) (emailSent : Bool)
    (resolvedEmail : Option String) : Bool × String :=
  let workNote := automationWorkNoteText topic resources emailSent resolvedEmail
  match patchResult with
  | Except.ok _ => (true, workNote)
  | Except.error _ => (false, workNote) -- caught: logged warning, request continues

/-- `AutomationResult` from `automation.ts` (the `enrichment` object is
flattened into the two `enrichment*` fields). -/
structure AutomationResult where
  classified : Bool
  topic : String
  emailSent : Bool
  emailProvider : Option String
  workNoteAdded : Bool
  enrichmentTopic : String
  enrichmentResources : List ClassificationResource
deriving DecidableEq, Repr

/-- `automateGoogleWorkspaceAccountAccess`.  `workNotePatch` is the
remote outcome of the work-note patch.  The second component records
whether an acknowledgement email attempt was made (the stub invoked). -/
def automateGoogleWorkspaceAccountAccess (workNotePatch : Except String Unit)
    (_payload : ClientIncidentCreate) (_sysId : String)
    (incidentNumber : Option String) (resolvedEmail : Option String) :
    AutomationResult × Bool :=
  let topic := "Google Workspace Account Access"
  let resources := googleWorkspaceAccountAccessResources
  let (emailResult, emailAttempted) :=
    match resolvedEmail with
    | some e =>
      if e == "" then ((false, (none : Option String)), false)
      else (sendAcknowledgementEmail e (jsOrStr incidentNumber "N/A") topic resources, true)
    | none => ((false, none), false)
  let (workNoteAdded, _note) :=
    writeAutomationWorkNote workNotePatch topic resources emailResult.1 resolvedEmail
  ({ classified := true
     topic := topic
     emailSent := emailResult.1
     emailProvider := emailResult.2
     workNoteAdded := workNoteAdded
     enrichmentTopic := topic
     enrichmentResources := resources }, emailAttempted)

/-! ## Incident orchestrator (`createClientIncident`, incident intake module) -/

/-- The legacy `IncidentCreate` shape the orchestrator adapts the client
payload to before calling the remote create. -/
structure IncidentCreatePayload where
  product : String
  short_description : String
  description : Option String := none
  priority : Option String := none
  impact : Option String := none
  urgency : Option String := none
deriving DecidableEq, Repr

/-- The composite `description` built by `createClientIncident`:
truthy parts joined with a blank line, `undefined` when empty. -/
def buildCompositeDescription (payload : ClientIncidentCreate) : Option String :=
  let parts :=
    (match payload.detailedDescription with
     | some d => if d == "" then [] else [d]
     | none => []) ++
    (match payload.errorCode with
     | some e => if e == "" then [] else ["Error Code: " ++ e]
     | none => []) ++
    (if payload.client == "" then [] else ["Client: " ++ payload.client])
  let joined := String.intercalate "\n\n" parts
  if joined == "" then none else some joined

/-- The adaptation of the client payload to the legacy shape
(`createClientIncident`, "Adapt the client payload ..."): note that
`priority` is passed through as-is. -/
def legacyPayloadOf (payload : ClientIncidentCreate) : IncidentCreatePayload :=
  { product := payload.category
    short_description := payload.shortDescription
    description := buildCompositeDescription payload
    priority := payload.priority }

/-- The full field map transmitted in the remote create call
(`createIncident`'s `snPayload` spread with the orchestrator's
`additionalFields`). -/
structure SNCreateFields where
  short_description : String
  description : Option String
  priority : Option String
  impact : Option String
  urgency : Option String
  category : String
  u_client : String
  u_source : String
  contact_type : String
  u_client_email : Option String
deriving DecidableEq, Repr

/-- The fields `createClientIncident` transmits in the remote create call. -/
def snCreateFieldsOf (payload : ClientIncidentCreate) : SNCreateFields :=
  let legacy := legacyPayloadOf payload
  { short_description := legacy.short_description
    description := legacy.description
    priority := legacy.priority
    impact := legacy.impact
    urgency := legacy.urgency
    category := legacy.product
    u_client := payload.client
    u_source := "BBP Support Counter"
    contact_type := "self-service"
    u_client_email := resolveContactEmail payload }

/-- Modelled from the spec: the documented label-to-numeric priority
conversion ("priority (mapped from a 3-level label to a numeric code)";
the `mapPriority` function and Field Mappings table of the ServiceNow
docs: Low → "5", Normal → "3", High → "1").  No such conversion exists
in the implementation sources. -/
def documentedPriorityCode : Option String → Option String
  | none => none
  | some p =>
    if p == "Low" then some "5"
    else if p == "Normal" then some "3"
    else if p == "High" then some "1"
    else none

/-- The record echoed by the remote create call. -/
structure CreatedIncident where
  sys_id : String
  number : Option String := none
  state : String := ""
deriving DecidableEq, Repr

/-- Summary of the automation outcome embedded in the response. -/
structure AutomationSummary where
  classified : Bool
  emailSent : Bool
  emailProvider : Option String
  workNoteAdded : Bool
deriving DecidableEq, Repr

/-- `ClientIncidentResponse`: the enriched response assembled by the
orchestrator. -/
structure ClientIncidentResponse where
  sys_id : String
  number : Option String
  client : String
  category : String
  shortDescription : String
  detailedDescription : Option String
  state : String
  priority : Option String
  topic : String
  recommendedResources : List ClassificationResource
  automation : Option AutomationSummary
deriving DecidableEq, Repr

/-- The generic work note written on the non-automation path. -/
def genericWorkNoteText (topic : String) (resources : List ClassificationResource)
    (resolvedEmail : Option String) : String :=
  let lines :=
    ["[AUTO] Classified as \x27" ++ topic ++ "\x27"] ++
    (match resolvedEmail with
     | some e => ["[AUTO] Sent acknowledgement and self-service resources to " ++ e ++ "."]
     | none => []) ++
    (let resourceList := String.intercalate "\n"
        (resources.map (fun r => "  • " ++ r.label ++ " (" ++ resourceTypeText r.type ++ ")"))
     if resourceList == "" then [] else ["Recommended resources:\n" ++ resourceList])
  String.intercalate "\n" lines

/-- `createClientIncident`.  The effects of the remote are explicit
inputs: `createResult` is the outcome of the remote create call,
`workNotePatch` the outcome of the `work_notes` patch attempted on
whichever path runs.  The second component of the result is the trace
of work-note bodies whose patch was attempted. -/
def createClientIncident (createResult : Except String CreatedIncident)
    (workNotePatch : Except String Unit) (payload : ClientIncidentCreate) :
    Except String ClientIncidentResponse × List String :=
  let resolvedEmail := resolveContactEmail payload
  match createResult with
  | Except.error e => (Except.error e, []) -- a failed create propagates
  | Except.ok incident =>
    let automationResult : Option AutomationResult :=
      if hasAutomation payload.category then
        some (automateGoogleWorkspaceAccountAccess workNotePatch payload
          incident.sys_id incident.number resolvedEmail).1
      else none
    let enrichment := classifyAndRecommend
      { client := payload.client
        category := payload.category
        errorCode := payload.errorCode
        shortDescription := payload.shortDescription
        detailedDescription := payload.detailedDescription.getD "" }
    -- non-automation path: attempt the generic work-note patch; a failure
    -- is caught and only logged
    let genericNote := genericWorkNoteText enrichment.topic
      enrichment.recommendedResources resolvedEmail
    let trace :=
      match automationResult with
      | some a => [automationWorkNoteText a.topic a.enrichmentResources a.emailSent resolvedEmail]
      | none => [genericNote]
    let finalTopic := jsOrStr (automationResult.map (·.enrichmentTopic)) enrichment.topic
    let finalResources :=
      match automationResult with
      | some a => a.enrichmentResources
      | none => enrichment.recommendedResources
    (Except.ok
      { sys_id := incident.sys_id
        number := incident.number
        client := payload.client
        category := payload.category
        shortDescription := payload.shortDescription
        detailedDescription := payload.detailedDescription
        state := if incident.state == "" then "1" else incident.state
        priority := payload.priority
        topic := finalTopic
        recommendedResources := finalResources
        automation := automationResult.map
          (fun a => ⟨a.classified, a.emailSent, a.emailProvider, a.workNoteAdded⟩) },
     trace)

/-! ## Activity reconstructor (`getAutomationActivity`, `activity.ts`) -/

structure ActivityIncident where
  sys_id : String
  number : Option String := none
  description : Option String := none
  work_notes : Option String := none
  sys_updated_on : Option String := none
deriving DecidableEq, Repr

structure AutomationActivity where
  timestamp : String
  incidentNumber : String
  client : Option String
  summary : String
  sys_id : String
deriving DecidableEq, Repr

/-- Remote semantics of the activity query
`work_notesLIKE[AUTO]^descriptionLIKEClient:` with `sysparm_limit`. -/
def activityQuery (store : List ActivityIncident) (limit : Nat) : List ActivityIncident :=
  (store.filter (fun t =>
    strIncludes (t.work_notes.getD "") "[AUTO]" &&
    strIncludes (t.description.getD "") "Client:")).take limit

/-- Backtracking step of the regex `/Client:\s*([^\n]+)/` after the
literal `Client:` was consumed: `\s*` greedily takes `k` whitespace
characters, backing off until `[^\n]+` can match at least one
character. -/
def clientCaptureFrom (rest : List Char) : Nat → Option (List Char)
  | 0 =>
    match rest with
    | [] => none
    | c :: _ => if c = '\n' then none else some (rest.takeWhile (fun x => x ≠ '\n'))
  | k + 1 =>
    match rest.drop (k + 1) with
    | [] => clientCaptureFrom rest k
    | c :: _ =>
      if c = '\n' then clientCaptureFrom rest k
      else some ((rest.drop (k + 1)).takeWhile (fun x => x ≠ '\n'))

/-- Leftmost match of `/Client:\s*([^\n]+)/`: the captured group. -/
def clientCapture : List Char → Option (List Char)
  | [] => none
  | c :: rest =>
    if leadsWith "Client:".data (c :: rest) then
      let after := (c :: rest).drop 7
      match clientCaptureFrom after ((after.takeWhile isJsWs).length) with
      | some cap => some cap
      | none => clientCapture rest
    else clientCapture rest

/-- `description.match(/Client:\s*([^\n]+)/)` followed by `.trim()`. -/
def extractClient (description : String) : Option String :=
  (clientCapture description.data).map (fun cs => strTrim (String.mk cs))

/-- `line.replace(/^\[AUTO\]\s*/, '')`. -/
def stripAutoMarker (line : String) : String :=
  if strStartsWith line "[AUTO]" then
    String.mk ((line.data.drop 6).dropWhile isJsWs)
  else line

/-- The `[AUTO]` lines of a work-notes blob: split on newlines, keep
lines whose trimmed form starts with the marker, strip the marker and
trim. -/
def autoLines (workNotes : String) : List String :=
  ((splitLines workNotes).filter (fun line => strStartsWith (strTrim line) "[AUTO]")).map
    (fun line => strTrim (stripAutoMarker line))

/-- The activity entries one fetched incident contributes
(`now` models `new Date().toISOString()`). -/
def activityEntriesOf (now : String) (incident : ActivityIncident) : List AutomationActivity :=
  match incident.work_notes with
  | none => []
  | some wn =>
    if wn == "" then [] -- `if (!incident.work_notes) continue;`
    else
      let client :=
        match incident.description with
        | some d => if d == "" then none else extractClient d
        | none => none
      (autoLines wn).filterMap (fun summary =>
        if summary == "" then none
        else some
          { timestamp := jsOrStr incident.sys_updated_on now
            incidentNumber := jsOrStr incident.number "N/A"
            client := client
            summary := summary
            sys_id := incident.sys_id })

/-- Stable insertion (descending by key) modelling the stable JS
`activities.sort((a, b) => timeB - timeA)`. -/
def insertByKeyDesc (key : AutomationActivity → Int) (x : AutomationActivity) :
    List AutomationActivity → List AutomationActivity
  | [] => [x]
  | y :: ys => if key y < key x then x :: y :: ys else y :: insertByKeyDesc key x ys

/-- Stable sort, descending by key. -/
def sortByKeyDesc (key : AutomationActivity → Int) (l : List AutomationActivity) :
    List AutomationActivity :=
  l.foldl (fun acc x => insertByKeyDesc key x acc) []

/-- `getAutomationActivity(limit)`.  `getTime` models
`new Date(s).getTime()`, `now` the current-time fallback, `store` the
remote incident table. -/
def getAutomationActivity (getTime : String → Int) (now : String)
    (store : List ActivityIncident) (limit : Nat) : List AutomationActivity :=
  let fetched := activityQuery store limit
  let activities := (fetched.map (activityEntriesOf now)).flatten
  sortByKeyDesc (fun a => getTime a.timestamp) activities

/-! ## Spec-side classification predicate and helper lemmas -/

/-- The first-pass match predicate as the specification words it: the
rule's keyword set is non-empty and some keyword is a case-insensitive
substring of the combined short+long text, or the rule's error-code set
is non-empty and the case-folded input error code contains one of the
patterns as a substring. -/
def specRuleMatches (input : ClassificationInput) (rule : ClassificationRule) : Bool :=
  (!(rule.matchKeywords.getD []).isEmpty &&
    (rule.matchKeywords.getD []).any (fun kw =>
      strIncludes (strToLower (input.shortDescription ++ " " ++ input.detailedDescription))
        (strToLower kw)))
  || (!(rule.matchErrorCodes.getD []).isEmpty &&
      (match input.errorCode with
       | some ec => (rule.matchErrorCodes.getD []).any (fun p =>
           strIncludes (strToLower ec) (strToLower p))
       | none => false))

theorem find?_congr_of_mem {α : Type} {p q : α → Bool} :
    ∀ l : List α, (∀ a ∈ l, p a = q a) → l.find? p = l.find? q := by
  intro l h
  induction l with
  | nil => rfl
  | cons a rest ih =>
    have ha := h a (List.mem_cons_self a rest)
    simp only [List.find?_cons]
    rw [ha]
    cases q a with
    | true => rfl
    | false => exact ih (fun b hb => h b (List.mem_cons_of_mem a hb))

theorem emptyGuard_any_eq {α : Type} (l : List α) (f : α → Bool) :
    (!l.isEmpty && l.any f) = l.any f := by
  cases l <;> simp

theorem strToLower_empty_iff (s : String) : (strToLower s == "") = (s == "") := by
  cases s with
  | mk data =>
    cases data with
    | nil => rfl
    | cons c cs => simp [strToLower, String.ext_iff]

/-- Every error-code pattern of the static table is a non-empty string
(so the empty case-folded error code can never contain one). -/
theorem table_patterns_ne_empty :
    ∀ rule ∈ CLASSIFICATION_RULES, ∀ p ∈ rule.matchErrorCodes.getD [],
      strIncludes "" (strToLower p) = false := by decide

/-- No rule of the static table carries the unclassified topic. -/
theorem table_topics_ne_unclassified :
    ∀ rule ∈ CLASSIFICATION_RULES, ¬(rule.topic = "Unclassified / Manual Review") := by decide

/-- On the rules of the static table, the code's first-pass predicate
agrees with the spec-side predicate for every input. -/
theorem codeRuleMatches_eq_spec (input : ClassificationInput) (rule : ClassificationRule)
    (hrule : rule ∈ CLASSIFICATION_RULES) :
    codeRuleMatches (strToLower (input.shortDescription ++ " " ++ input.detailedDescription))
      (input.errorCode.map strToLower) rule = specRuleMatches input rule := by
  unfold codeRuleMatches specRuleMatches
  have hkw :
      (match rule.matchKeywords with
       | some kws => kws.any (fun kw =>
           strIncludes (strToLower (input.shortDescription ++ " " ++ input.detailedDescription))
             (strToLower kw))
       | none => false)
      = (!(rule.matchKeywords.getD []).isEmpty &&
          (rule.matchKeywords.getD []).any (fun kw =>
            strIncludes (strToLower (input.shortDescription ++ " " ++ input.detailedDescription))
              (strToLower kw))) := by
    cases rule.matchKeywords with
    | none => rfl
    | some kws => rw [Option.getD_some, emptyGuard_any_eq]
  have herr :
      (match input.errorCode.map strToLower with
       | some ec =>
         !(ec == "") &&
           (match rule.matchErrorCodes with
            | some ecs => ecs.any (fun p => strIncludes ec (strToLower p))
            | none => false)
       | none => false)
      = (!(rule.matchErrorCodes.getD []).isEmpty &&
          (match input.errorCode with
           | some ec => (rule.matchErrorCodes.getD []).any (fun p =>
               strIncludes (strToLower ec) (strToLower p))
           | none => false)) := by
    cases hec : input.errorCode with
    | none => simp
    | some ec =>
      simp only [Option.map_some']
      cases hecs : rule.matchErrorCodes with
      | none => simp
      | some ecs =>
        rw [Option.getD_some, strToLower_empty_iff]
        by_cases he : ec = ""
        · subst he
          have hall : ecs.any (fun p => strIncludes (strToLower "") (strToLower p)) = false := by
            rw [List.any_eq_false]
            intro p hp
            have h2 := table_patterns_ne_empty rule hrule p
            rw [hecs] at h2
            have hne := h2 (by simpa using hp)
            intro hcon
            have h0 : strToLower "" = "" := rfl
            rw [h0, hne] at hcon
            cases hcon
          simp [hall]
        · have : (ec == "") = false := by simp [he]
          rw [this, Bool.not_false, Bool.true_and, emptyGuard_any_eq]
  rw [hkw, herr]

/-! ## Helper lemmas for the resolution service and automation -/

theorem applyResolvePatch_sys_id (r : SNIncidentRecord) (p : ResolvePatchPayload) :
    (applyResolvePatch r p).sys_id = r.sys_id := rfl

/-- Fetch-after-patch: querying the store after the resolve patch was
applied returns exactly the previously matching records, each updated. -/
theorem snQueryById_patchById (store : List SNIncidentRecord) (id : String)
    (p : ResolvePatchPayload) :
    snQueryById (patchById store id p) id =
      (snQueryById store id).map (fun r => applyResolvePatch r p) := by
  induction store with
  | nil => rfl
  | cons r rest ih =>
    simp only [snQueryById, patchById, List.map_cons, List.filter_cons] at ih ⊢
    by_cases hid : r.sys_id = id
    · simp [hid, applyResolvePatch_sys_id]
      simpa using ih
    · simp [hid]
      simpa using ih

/-- The record part of every automation run is fixed: classified, the
fixed topic and resource list, the stub's not-sent email outcome, and a
work-note flag reflecting only the patch outcome. -/
theorem automate_result_eq (wp : Except String Unit) (payload : ClientIncidentCreate)
    (sysId : String) (num : Option String) (email : Option String) :
    (automateGoogleWorkspaceAccountAccess wp payload sysId num email).1 =
      { classified := true
        topic := "Google Workspace Account Access"
        emailSent := false
        emailProvider := none
        workNoteAdded := match wp with | Except.ok _ => true | Except.error _ => false
        enrichmentTopic := "Google Workspace Account Access"
        enrichmentResources := googleWorkspaceAccountAccessResources } := by
  cases email with
  | none => cases wp <;> rfl
  | some e =>
    by_cases he : (e == "") = true
    · cases wp <;>
        simp [automateGoogleWorkspaceAccountAccess, writeAutomationWorkNote, he]
    · have he' : (e == "") = false := by
        cases h : (e == "") with
        | true => exact absurd h he
        | false => rfl
      cases wp <;>
        simp [automateGoogleWorkspaceAccountAccess, writeAutomationWorkNote,
          sendAcknowledgementEmail, he']

/-- `resolveContactEmail` never resolves to the empty string. -/
theorem resolveContactEmail_ne_empty (payload : ClientIncidentCreate) (e : String)
    (h : resolveContactEmail payload = some e) : (e == "") = false := by
  unfold resolveContactEmail at h
  cases hce : payload.clientEmail with
  | none => rw [hce] at h; exact absurd h (by simp)
  | some c =>
    rw [hce] at h
    by_cases hc : (c == "") = true
    · simp [hc] at h
    · simp [hc] at h
      cases hx : (c == "") with
      | true => exact absurd hx hc
      | false => rw [← h]; exact hx

/-! ## Claim theorems -/

/-- C1: evaluating the embedded `withRetry` of the error-handling guide
on the claimed scenarios.  The 5xx and 404 scenarios behave as claimed
(5 calls and 4 delays then an error; 1 call and 0 delays); but on
`[429, 429, 200]` the wrapper propagates the 429 after a single call
and zero delays, because its `statusCode >= 400 && statusCode < 500`
guard also covers 429 — contradicting the claim (and the guide's own
retry table), which require the 200 to be returned after two delays. -/
theorem C1_withRetry_429_guard_bug :
    withRetry [429, 429, 200] 5 = ⟨Except.error 429, 1, 0⟩
    ∧ withRetry [500, 500, 500, 500, 500] 5 = ⟨Except.error 500, 5, 4⟩
    ∧ withRetry [404] 5 = ⟨Except.error 404, 1, 0⟩ := by
  decide

/-- C2: for every classification input, `classifyAndRecommend` scans the
rules whose category equals the input category in declaration order and
returns the topic and resource list of the first rule satisfying the
spec-side predicate (non-empty keyword set with a case-insensitive
keyword hit on the combined short+long text, or non-empty error-code set
with a pattern contained in the case-folded error code); in particular,
on overlapping matches the first-declared rule's topic is returned. -/
theorem C2_classify_first_match (input : ClassificationInput) (rule : ClassificationRule)
    (h : (CLASSIFICATION_RULES.filter (fun r => r.category == input.category)).find?
          (specRuleMatches input) = some rule) :
    classifyAndRecommend input = ⟨rule.topic, rule.resources⟩ := by
  have hcongr := find?_congr_of_mem
      (p := fun r => codeRuleMatches
        (strToLower (input.shortDescription ++ " " ++ input.detailedDescription))
        (input.errorCode.map strToLower) r)
      (q := specRuleMatches input)
      (CLASSIFICATION_RULES.filter (fun r => r.category == input.category))
      (fun r hr => codeRuleMatches_eq_spec input r (List.mem_of_mem_filter hr))
  simp only [classifyAndRecommend]
  rw [hcongr, h]

def c2Input : ClassificationInput :=
  { client := "Acme"
    category := "HubSpot – Lifecycle & Automation"
    errorCode := some "WF-17"
    shortDescription := "Deals stuck"
    detailedDescription := "Stage not updating" }

theorem C2_classify_first_match_witness :
    classifyAndRecommend c2Input =
      ⟨(CLASSIFICATION_RULES.get ⟨4, by decide⟩).topic,
       (CLASSIFICATION_RULES.get ⟨4, by decide⟩).resources⟩ :=
  C2_classify_first_match c2Input (CLASSIFICATION_RULES.get ⟨4, by decide⟩) (by decide)

/-- C3: (a) for every input whose category has at least one fallback rule
(no keyword set, no error-code set) in the static table,
`classifyAndRecommend` never returns the topic
"Unclassified / Manual Review"; (b) for every input whose category
matches no rule at all, it returns exactly that topic with an empty
resource list. -/
theorem C3_fallback_and_unknown_category :
    (∀ input : ClassificationInput,
      (CLASSIFICATION_RULES.any (fun r => r.category == input.category &&
        r.matchKeywords.isNone && r.matchErrorCodes.isNone)) = true →
      (classifyAndRecommend input).topic ≠ "Unclassified / Manual Review")
    ∧ (∀ input : ClassificationInput,
      (CLASSIFICATION_RULES.all (fun r => !(r.category == input.category))) = true →
      classifyAndRecommend input = ⟨"Unclassified / Manual Review", []⟩) := by
  constructor
  · intro input h
    obtain ⟨r, hr, hpred⟩ := List.any_eq_true.mp h
    simp only [Bool.and_eq_true] at hpred
    have hcat : (r.category == input.category) = true := hpred.1.1
    have hfallb : (r.matchKeywords.isNone && r.matchErrorCodes.isNone) = true := by
      simp only [Bool.and_eq_true]
      exact ⟨hpred.1.2, hpred.2⟩
    simp only [classifyAndRecommend]
    cases hfind : (CLASSIFICATION_RULES.filter (fun rule => rule.category == input.category)).find?
        (fun rule => codeRuleMatches
          (strToLower (input.shortDescription ++ " " ++ input.detailedDescription))
          (input.errorCode.map strToLower) rule) with
    | some rule =>
      have hmem := List.mem_of_find?_eq_some hfind
      exact table_topics_ne_unclassified rule (List.mem_of_mem_filter hmem)
    | none =>
      cases hfb : (CLASSIFICATION_RULES.filter (fun rule => rule.category == input.category)).find?
          (fun rule => rule.matchKeywords.isNone && rule.matchErrorCodes.isNone) with
      | some fb =>
        have hmem := List.mem_of_find?_eq_some hfb
        exact table_topics_ne_unclassified fb (List.mem_of_mem_filter hmem)
      | none =>
        exfalso
        rw [List.find?_eq_none] at hfb
        exact hfb r (List.mem_filter.mpr ⟨hr, hcat⟩) hfallb
  · intro input h
    have hnil : CLASSIFICATION_RULES.filter (fun r => r.category == input.category) = [] := by
      rw [List.filter_eq_nil_iff]
      intro a ha
      have := (List.all_eq_true.mp h) a ha
      simpa using this
    simp only [classifyAndRecommend]
    rw [hnil]
    rfl

def c3aInput : ClassificationInput :=
  { client := "Acme", category := "Other",
    shortDescription := "broken widget", detailedDescription := "" }

def c3bInput : ClassificationInput :=
  { client := "Acme", category := "Uncharted Category",
    shortDescription := "x", detailedDescription := "" }

theorem C3_fallback_and_unknown_category_witness :
    ((classifyAndRecommend c3aInput).topic ≠ "Unclassified / Manual Review")
    ∧ classifyAndRecommend c3bInput = ⟨"Unclassified / Manual Review", []⟩ :=
  ⟨C3_fallback_and_unknown_category.1 c3aInput (by decide),
   C3_fallback_and_unknown_category.2 c3bInput (by decide)⟩

def c9Payload : ClientIncidentCreate :=
  { client := "Acme"
    category := "Other"
    shortDescription := "x"
    priority := some "High" }

/-- C9: the payload `createClientIncident` transmits to the remote
create call carries the priority label verbatim ("Pass as-is"), not the
numeric code the repository's own field-mapping documentation
prescribes (High → "1"): the claim's mapped-code property fails. -/
theorem C9_priority_passthrough_bug :
    (snCreateFieldsOf c9Payload).priority = some "High"
    ∧ documentedPriorityCode (some "High") = some "1"
    ∧ (snCreateFieldsOf c9Payload).priority ≠ documentedPriorityCode c9Payload.priority := by
  refine ⟨rfl, rfl, ?_⟩
  decide

/-- C10: when the initial fetch returns zero records, `resolveIncident`
propagates a not-found error and its update trace is empty — no partial
update is constructed or transmitted. -/
theorem C10_resolve_notfound_no_update
    (patchEcho : ResolvePatchPayload → SNIncidentRecord) (id : String)
    (note : Option String) :
    resolveIncident [] patchEcho id note =
      (Except.error ("Incident " ++ id ++ " not found"), []) := rfl

/-- C4: (a) for every ticket whose fetched state is already "6" or "7",
`resolveIncident` returns the fetched record unchanged, flagged
`alreadyResolved := true`, and transmits no update; (b) against a
well-behaved store, whenever a first resolve call succeeds, a second
resolve call in sequence transmits zero update payloads and reports
`alreadyResolved := true`. -/
theorem C4_resolve_idempotent :
    (∀ (rest : List SNIncidentRecord) (patchEcho : ResolvePatchPayload → SNIncidentRecord)
       (id : String) (note : Option String) (inc : SNIncidentRecord),
       (inc.state = "6" ∨ inc.state = "7") →
       resolveIncident (inc :: rest) patchEcho id note = (Except.ok ⟨inc, true⟩, []))
    ∧ (∀ (store : List SNIncidentRecord) (id : String) (note1 note2 : Option String),
       ((resolveIncidentOnStore store id note1).1.1).isOk = true →
       (resolveIncidentOnStore (resolveIncidentOnStore store id note1).2 id note2).1.2 = []
       ∧ ∃ out, (resolveIncidentOnStore (resolveIncidentOnStore store id note1).2 id note2).1.1
           = Except.ok out ∧ out.alreadyResolved = true) := by
  constructor
  · intro rest patchEcho id note inc h
    have hguard : (inc.state == "6" || inc.state == "7") = true := by
      rcases h with h | h <;> simp [h]
    simp [resolveIncident, hguard]
  · intro store id note1 note2 hok
    cases hq : snQueryById store id with
    | nil =>
      exfalso
      simp only [resolveIncidentOnStore, hq, resolveIncident] at hok
      cases hok
    | cons inc rest =>
      by_cases hguard : (inc.state == "6" || inc.state == "7") = true
      · -- first call hit the idempotency guard: the store is unchanged and
        -- the second call hits the guard again
        have hres : resolveIncidentOnStore store id note1 =
            ((Except.ok ⟨inc, true⟩, []), store) := by
          simp [resolveIncidentOnStore, hq, resolveIncident, hguard]
        rw [hres]
        have hres2 : resolveIncidentOnStore store id note2 =
            ((Except.ok ⟨inc, true⟩, []), store) := by
          simp [resolveIncidentOnStore, hq, resolveIncident, hguard]
        rw [hres2]
        exact ⟨rfl, ⟨inc, true⟩, rfl, rfl⟩
      · -- first call updated the ticket to state "6"; the second fetch sees
        -- the patched record and hits the guard
        have hguard' : (inc.state == "6" || inc.state == "7") = false := by
          cases hx : (inc.state == "6" || inc.state == "7") with
          | true => exact absurd hx hguard
          | false => rfl
        have hpay : (resolveIncidentOnStore store id note1).2 =
            patchById store id ⟨"6", "Solution provided",
              note1.getD "Resolved via knowledge deflection."⟩ := by
          simp [resolveIncidentOnStore, hq, resolveIncident, hguard']
        rw [hpay]
        have hq2 : snQueryById (patchById store id ⟨"6", "Solution provided",
              note1.getD "Resolved via knowledge deflection."⟩) id =
            applyResolvePatch inc ⟨"6", "Solution provided",
              note1.getD "Resolved via knowledge deflection."⟩ ::
            rest.map (fun r => applyResolvePatch r ⟨"6", "Solution provided",
              note1.getD "Resolved via knowledge deflection."⟩) := by
          rw [snQueryById_patchById, hq, List.map_cons]
        have hguard2 : ((applyResolvePatch inc ⟨"6", "Solution provided",
            note1.getD "Resolved via knowledge deflection."⟩).state == "6"
            || (applyResolvePatch inc ⟨"6", "Solution provided",
            note1.getD "Resolved via knowledge deflection."⟩).state == "7") = true := rfl
        constructor
        · simp [resolveIncidentOnStore, hq2, resolveIncident, hguard2]
        · refine ⟨⟨applyResolvePatch inc ⟨"6", "Solution provided",
            note1.getD "Resolved via knowledge deflection."⟩, true⟩, ?_, rfl⟩
          simp [resolveIncidentOnStore, hq2, resolveIncident, hguard2]

def c4ResolvedRec : SNIncidentRecord :=
  { sys_id := "abc", number := some "INC1", state := "6" }

def c4OpenRec : SNIncidentRecord :=
  { sys_id := "abc", number := some "INC1", state := "2" }

theorem C4_resolve_idempotent_witness :
    resolveIncident [c4ResolvedRec] (fun _ => c4ResolvedRec) "abc" none =
      (Except.ok ⟨c4ResolvedRec, true⟩, [])
    ∧ ((resolveIncidentOnStore (resolveIncidentOnStore [c4OpenRec] "abc" none).2 "abc" none).1.2 = []
       ∧ ∃ out, (resolveIncidentOnStore (resolveIncidentOnStore [c4OpenRec] "abc" none).2
             "abc" none).1.1 = Except.ok out ∧ out.alreadyResolved = true) :=
  ⟨C4_resolve_idempotent.1 [] (fun _ => c4ResolvedRec) "abc" none c4ResolvedRec (Or.inl rfl),
   C4_resolve_idempotent.2 [c4OpenRec] "abc" none none (by decide)⟩

/-- C7: for every ticket whose fetched state is not "6" or "7",
`resolveIncident` transmits exactly one partial update carrying state
"6", the fixed close reason "Solution provided", and the caller's note
(default "Resolved via knowledge deflection." when absent), and the
returned record's state is "6" regardless of the state the remote echo
reports. -/
theorem C7_resolve_update_payload
    (patchEcho : ResolvePatchPayload → SNIncidentRecord)
    (id : String) (note : Option String) (inc : SNIncidentRecord)
    (rest : List SNIncidentRecord)
    (h : (inc.state == "6" || inc.state == "7") = false) :
    resolveIncident (inc :: rest) patchEcho id note =
      (Except.ok ⟨{ patchEcho ⟨"6", "Solution provided",
          note.getD "Resolved via knowledge deflection."⟩ with state := "6" }, false⟩,
       [⟨"6", "Solution provided", note.getD "Resolved via knowledge deflection."⟩])
    ∧ ((resolveIncident (inc :: rest) patchEcho id note).1.map
        (fun out => out.record.state) = Except.ok "6") := by
  have hres : resolveIncident (inc :: rest) patchEcho id note =
      (Except.ok ⟨{ patchEcho ⟨"6", "Solution provided",
          note.getD "Resolved via knowledge deflection."⟩ with state := "6" }, false⟩,
       [⟨"6", "Solution provided", note.getD "Resolved via knowledge deflection."⟩]) := by
    simp [resolveIncident, h]
  exact ⟨hres, by rw [hres]; rfl⟩

def c7StaleEcho : ResolvePatchPayload → SNIncidentRecord :=
  fun _ => { sys_id := "abc", number := some "INC1", state := "2" }

theorem C7_resolve_update_payload_witness :
    resolveIncident [c4OpenRec] c7StaleEcho "abc" (some "done") =
      (Except.ok ⟨{ c7StaleEcho ⟨"6", "Solution provided", "done"⟩ with state := "6" }, false⟩,
       [⟨"6", "Solution provided", "done"⟩])
    ∧ ((resolveIncident [c4OpenRec] c7StaleEcho "abc" (some "done")).1.map
        (fun out => out.record.state) = Except.ok "6") :=
  C7_resolve_update_payload c7StaleEcho "abc" (some "done") c4OpenRec [] (by decide)

/-- C5: for every creation request that reaches the annotation step
(the remote create succeeded), a failing work-notes patch never fails
the request: the orchestrator still returns the assembled enriched
response, and on the automation path the failure surfaces only as
`workNoteAdded := false`. -/
theorem C5_workNote_failure_nonfatal :
    ∀ (payload : ClientIncidentCreate) (incident : CreatedIncident) (err : String),
      (∃ resp, (createClientIncident (Except.ok incident) (Except.error err) payload).1
          = Except.ok resp)
      ∧ (hasAutomation payload.category = true →
         ∃ resp, (createClientIncident (Except.ok incident) (Except.error err) payload).1
             = Except.ok resp
           ∧ resp.automation = some ⟨true, false, none, false⟩) := by
  intro payload incident err
  refine ⟨⟨_, rfl⟩, ?_⟩
  intro hauto
  refine ⟨_, rfl, ?_⟩
  simp [createClientIncident, hauto, automate_result_eq]

def c5Payload : ClientIncidentCreate :=
  { client := "Acme"
    category := "Google Workspace – Account Access"
    shortDescription := "cannot login"
    clientEmail := some "user@acme.test" }

def c5Incident : CreatedIncident :=
  { sys_id := "s1", number := some "INC2", state := "" }

theorem C5_workNote_failure_nonfatal_witness :
    (∃ resp, (createClientIncident (Except.ok c5Incident) (Except.error "patch failed")
        c5Payload).1 = Except.ok resp)
    ∧ (∃ resp, (createClientIncident (Except.ok c5Incident) (Except.error "patch failed")
        c5Payload).1 = Except.ok resp ∧ resp.automation = some ⟨true, false, none, false⟩) :=
  ⟨(C5_workNote_failure_nonfatal c5Payload c5Incident "patch failed").1,
   (C5_workNote_failure_nonfatal c5Payload c5Incident "patch failed").2 (by decide)⟩

/-- C8: automation dispatch maps exactly the category
"Google Workspace – Account Access"; every run of the mapped automation
returns `classified := true` with the fixed topic and fixed resource
list, reports `emailSent := false` and no provider (the stub); and
whenever a contact email was resolved, the acknowledgement attempt is
actually made. -/
theorem C8_automation_dispatch :
    (∀ category : String,
       hasAutomation category = (category == "Google Workspace – Account Access"))
    ∧ (∀ (wp : Except String Unit) (payload : ClientIncidentCreate) (sysId : String)
         (num : Option String) (email : Option String),
         (automateGoogleWorkspaceAccountAccess wp payload sysId num email).1.classified = true
         ∧ (automateGoogleWorkspaceAccountAccess wp payload sysId num email).1.topic
             = "Google Workspace Account Access"
         ∧ (automateGoogleWorkspaceAccountAccess wp payload sysId num email).1.enrichmentResources
             = googleWorkspaceAccountAccessResources
         ∧ (automateGoogleWorkspaceAccountAccess wp payload sysId num email).1.emailSent = false
         ∧ (automateGoogleWorkspaceAccountAccess wp payload sysId num email).1.emailProvider
             = none)
    ∧ (∀ (wp : Except String Unit) (payload : ClientIncidentCreate) (sysId : String)
         (num : Option String) (e : String),
         resolveContactEmail payload = some e →
         (automateGoogleWorkspaceAccountAccess wp payload sysId num
            (resolveContactEmail payload)).2 = true) := by
  refine ⟨fun _ => rfl, ?_, ?_⟩
  · intro wp payload sysId num email
    simp [automate_result_eq]
  · intro wp payload sysId num e h
    have hne := resolveContactEmail_ne_empty payload e h
    rw [h]
    simp [automateGoogleWorkspaceAccountAccess, hne]

theorem C8_automation_dispatch_witness :
    (automateGoogleWorkspaceAccountAccess (Except.ok ()) c5Payload "s1" (some "INC1")
       (resolveContactEmail c5Payload)).2 = true :=
  C8_automation_dispatch.2.2 (Except.ok ()) c5Payload "s1" (some "INC1")
    "user@acme.test" (by decide)

/-- The claim's example ticket: two `[AUTO]` work-note lines and a
`Client: Acme` marker in the long text. -/
def c6Ticket : ActivityIncident :=
  { sys_id := "sid1"
    number := some "INC0001"
    description := some "Widget broken\n\nClient: Acme"
    work_notes := some "[AUTO] Classified as \x27X\x27\nsome other line\n[AUTO] Step two"
    sys_updated_on := some "2024-01-01T00:00:00Z" }

/-- C6 counterexample: the claim says the returned entry list is
truncated to `limit`, but the code applies `limit` only to the ticket
query; the example ticket alone, fetched with `limit = 1`, yields two
entries. -/
theorem C6_limit_counterexample :
    ¬((getAutomationActivity (fun _ => 0) "2099-01-01T00:00:00.000Z" [c6Ticket] 1).length ≤ 1) := by
  decide

/-- Inserting an element permutes consing it. -/
theorem insertByKeyDesc_perm (key : AutomationActivity → Int) (x : AutomationActivity) :
    ∀ l : List AutomationActivity, (insertByKeyDesc key x l).Perm (x :: l) := by
  intro l
  induction l with
  | nil => exact List.Perm.refl _
  | cons y ys ih =>
    unfold insertByKeyDesc
    by_cases h : key y < key x
    · rw [if_pos h]
    · rw [if_neg h]
      exact (ih.cons y).trans (List.Perm.swap x y ys)

/-- The stable descending sort permutes its input: every emitted entry
is returned, none duplicated. -/
theorem sortByKeyDesc_perm (key : AutomationActivity → Int) (l : List AutomationActivity) :
    (sortByKeyDesc key l).Perm l := by
  have hgen : ∀ (l acc : List AutomationActivity),
      (l.foldl (fun a x => insertByKeyDesc key x a) acc).Perm (l ++ acc) := by
    intro l
    induction l with
    | nil => intro acc; exact List.Perm.refl _
    | cons x xs ih =>
      intro acc
      simp only [List.foldl_cons, List.cons_append]
      have h1 := ih (insertByKeyDesc key x acc)
      have h2 : (xs ++ insertByKeyDesc key x acc).Perm (xs ++ (x :: acc)) :=
        List.Perm.append_left xs (insertByKeyDesc_perm key x acc)
      exact (h1.trans h2).trans List.perm_middle
  have := hgen l []
  simpa using this

/-- Inserting into a descending-sorted list keeps it descending-sorted. -/
theorem insertByKeyDesc_pairwise (key : AutomationActivity → Int) (x : AutomationActivity) :
    ∀ l : List AutomationActivity,
      List.Pairwise (fun a b => key b ≤ key a) l →
      List.Pairwise (fun a b => key b ≤ key a) (insertByKeyDesc key x l) := by
  intro l
  induction l with
  | nil => intro _; simp [insertByKeyDesc]
  | cons y ys ih =>
    intro h
    obtain ⟨hy, hys⟩ := List.pairwise_cons.mp h
    unfold insertByKeyDesc
    by_cases hlt : key y < key x
    · rw [if_pos hlt]
      refine List.pairwise_cons.mpr ⟨?_, h⟩
      intro b hb
      rcases List.mem_cons.mp hb with hb | hb
      · subst hb; exact le_of_lt hlt
      · exact le_trans (hy b hb) (le_of_lt hlt)
    · rw [if_neg hlt]
      refine List.pairwise_cons.mpr ⟨?_, ih hys⟩
      intro b hb
      have hb' := (insertByKeyDesc_perm key x ys).mem_iff.mp hb
      rcases List.mem_cons.mp hb' with hb' | hb'
      · subst hb'; exact le_of_not_lt hlt
      · exact hy b hb'

/-- The stable descending sort really sorts: the result is pairwise
descending in the key. -/
theorem sortByKeyDesc_pairwise (key : AutomationActivity → Int) (l : List AutomationActivity) :
    List.Pairwise (fun a b => key b ≤ key a) (sortByKeyDesc key l) := by
  have hgen : ∀ (l acc : List AutomationActivity),
      List.Pairwise (fun a b => key b ≤ key a) acc →
      List.Pairwise (fun a b => key b ≤ key a)
        (l.foldl (fun a x => insertByKeyDesc key x a) acc) := by
    intro l
    induction l with
    | nil => intro acc h; exact h
    | cons x xs ih =>
      intro acc h
      exact ih _ (insertByKeyDesc_pairwise key x acc h)
  exact hgen l [] List.Pairwise.nil

/-- C6 (amended): for every store, limit and timestamp interpretation,
the reconstructor returns exactly the entries emitted per surviving
`[AUTO]` line of each fetched ticket (a permutation of the per-ticket
emission, nothing dropped or duplicated), and the returned list is
sorted by timestamp descending; the example ticket yields exactly two
entries, both with client "Acme", in log order, under every timestamp
interpretation; and `limit` truncates the fetched ticket set (the
remote query's page size), not the final entry list. -/
theorem C6_activity_reconstruction :
    (∀ (getTime : String → Int) (now : String) (store : List ActivityIncident) (limit : Nat),
       (getAutomationActivity getTime now store limit).Perm
         (((activityQuery store limit).map (activityEntriesOf now)).flatten))
    ∧ (∀ (getTime : String → Int) (now : String) (store : List ActivityIncident) (limit : Nat),
       List.Pairwise (fun a b => getTime b.timestamp ≤ getTime a.timestamp)
         (getAutomationActivity getTime now store limit))
    ∧ (∀ getTime : String → Int,
       getAutomationActivity getTime "2099-01-01T00:00:00.000Z" [c6Ticket] 50 =
         [⟨"2024-01-01T00:00:00Z", "INC0001", some "Acme", "Classified as \x27X\x27", "sid1"⟩,
          ⟨"2024-01-01T00:00:00Z", "INC0001", some "Acme", "Step two", "sid1"⟩])
    ∧ ∀ (store : List ActivityIncident) (limit : Nat),
        (activityQuery store limit).length ≤ limit := by
  refine ⟨?_, ?_, ?_, ?_⟩
  · intro getTime now store limit
    exact sortByKeyDesc_perm _ _
  · intro getTime now store limit
    exact sortByKeyDesc_pairwise _ _
  · intro getTime
    have h1 : getAutomationActivity getTime "2099-01-01T00:00:00.000Z" [c6Ticket] 50 =
        sortByKeyDesc (fun a => getTime a.timestamp)
          [⟨"2024-01-01T00:00:00Z", "INC0001", some "Acme", "Classified as \x27X\x27", "sid1"⟩,
           ⟨"2024-01-01T00:00:00Z", "INC0001", some "Acme", "Step two", "sid1"⟩] := rfl
    rw [h1]
    simp only [sortByKeyDesc, List.foldl, insertByKeyDesc]
    rw [if_neg (lt_irrefl _)]
  · intro store limit
    unfold activityQuery
    exact List.length_take_le _ _
